import Mathlib

/-!
# Verification of the Lung Segmenter workflow core

A shallow embedding of the control/data flow of `src/gui/main_window.py`,
`src/main.py` and `src/models/base_model.py`.  Pure Python code becomes Lean
functions; the mutable application state (`self.masks`, `self.base_masks`,
`self.operation_history`, the workflow state, the organ combo box) becomes an
explicit `AppState` record threaded through each handler.  Display-only
effects (progress bars, labels, canvas redraws, message-box text) are outside
the model; a message box that signals an error is represented by the `err`
field of a `StepResult`.

Components that live outside `src/` (`core.state_manager.UIStateManager`,
`gui.widgets.roi_selector.ROIManager`, `core.data_io`, `gui.workers`) are
modelled from the specification where a claim depends on them; each such
definition carries a doc comment starting `Modelled from the spec:`.
-/

/-- The UI/workflow states (`core.state_manager.UIState`, used throughout
`main_window.py`). -/
inductive UIState where
  | INITIAL
  | VOLUME_LOADED
  | ROI_DEFINED
  | SEGMENTING
  | MASK_READY
  | REFINING
deriving DecidableEq, Repr

/-- Errors surfaced by the workflow core.  `busy` is the `BusyError` of the
specification's §4.3; it appears in the taxonomy so that statements can
compare against it, but the code never produces it. -/
inductive AppError where
  | busy
  | illegalTransition
  | noRoi
  | invalidGeometry
  | modelUnavailable
  | noBaseMask
deriving DecidableEq, Repr

/-- Modelled from the spec: `core.state_manager.UIStateManager` is not under
`src/`.  §4.2 gives the transition table; `legalEdge s t` is true iff the
table has an edge from `s` to `t` (the two `REFINING --> MASK_READY` edges
collapse to one). -/
def legalEdge : UIState → UIState → Bool
  | .INITIAL, .VOLUME_LOADED => true
  | .VOLUME_LOADED, .VOLUME_LOADED => true
  | .VOLUME_LOADED, .ROI_DEFINED => true
  | .ROI_DEFINED, .VOLUME_LOADED => true
  | .ROI_DEFINED, .SEGMENTING => true
  | .SEGMENTING, .MASK_READY => true
  | .SEGMENTING, .ROI_DEFINED => true
  | .MASK_READY, .REFINING => true
  | .REFINING, .MASK_READY => true
  | .MASK_READY, .VOLUME_LOADED => true
  | _, _ => false

/-- Modelled from the spec: `UIStateManager.transition_to`.  §4.2: "A
transition attempted from a state where the source edge does not exist must
fail with `IllegalTransitionError`". -/
def transitionTo (s t : UIState) : Except AppError UIState :=
  if legalEdge s t then .ok t else .error .illegalTransition

/-- A slice-anchored rectangle `(z_slice, y0, y1, x0, x1)`, in the tuple
layout destructured at `main_window.py:825` and `main_window.py:1202`. -/
structure Roi3 where
  z : Int
  y0 : Int
  y1 : Int
  x0 : Int
  x1 : Int
deriving DecidableEq, Repr

/-- A 3D binary mask (`numpy` array in the source; value semantics here). -/
abbrev Mask := List (List (List Nat))

/-- The per-organ mask dictionaries `self.masks` / `self.base_masks`. -/
abbrev MaskMap := String → Option Mask

/-- Python dict assignment `d[k] = v`. -/
def MaskMap.set (m : MaskMap) (k : String) (v : Mask) : MaskMap :=
  fun k' => if k' = k then some v else m k'

/-- Kind tag of an operation-history entry (`'type'` in the appended dict,
`main_window.py:926` and `main_window.py:1025`). -/
inductive OpKind where
  | segmentation
  | refinement
deriving DecidableEq, Repr

/-- The statistics dict delivered by a finished segmentation worker; the
handler reads `organ_key`, `timestamp` and `elapsed_time` via `.get`, so the
first two are optional. -/
structure SegStats where
  organKey : Option String
  timestamp : Option Nat
  elapsedTime : Nat
deriving DecidableEq, Repr

/-- The statistics dict delivered by a finished refinement worker
(`main_window.py:1018-1045`). -/
structure RefStats where
  organKey : Option String
  timestamp : Option Nat
  baseCount : Nat
  finalCount : Nat
  improvementPercent : Int
  volumeMl : Nat
deriving DecidableEq, Repr

/-- The stats payload stored in an operation record. -/
inductive JobStats where
  | seg (s : SegStats)
  | ref (s : RefStats)
deriving DecidableEq, Repr

/-- One entry of `self.operation_history` (the dict appended at
`main_window.py:924-929` / `main_window.py:1023-1028`). -/
structure OpRecord where
  timestamp : Nat
  kind : OpKind
  organ : String
  stats : JobStats
deriving DecidableEq, Repr

/-- The kind of background worker spawned by a dispatch. -/
inductive JobKind where
  | segmentation
  | refinement
deriving DecidableEq, Repr

/-- The mutable application state of `LungSegmenterGUI` relevant to the
workflow core: the workflow state, the volume shape `(Z, Y, X)`, the current
slice, the two ROI annotations, the two mask dictionaries, the operation
history, and the organ combo box (current text and item list). -/
structure AppState where
  uiState : UIState
  shapeZ : Int
  shapeY : Int
  shapeX : Int
  currentSlice : Int
  roi1 : Option Roi3
  roi2 : Option Roi3
  masks : MaskMap
  baseMasks : MaskMap
  operationHistory : List OpRecord
  currentOrgan : String
  organItems : List String

/-- Result of one user-triggered handler: the state after the handler ran,
the error it surfaced (message box / propagated exception), if any, and the
background worker it spawned, if any. -/
structure StepResult where
  state : AppState
  err : Option AppError
  spawned : Option JobKind

/-! ## ROI handling (`main_window.py:780-863`) -/

/-- Modelled from the spec: `ROIManager.set_roi1` is not under `src/`; per
§4.1 it records the first annotation unconditionally.  The stored tuple
layout `(z, y0, y1, x0, x1)` is fixed by the destructuring at
`main_window.py:825`, and `_roi1_callback` (line 797) passes
`(slice, x_min, x_max, y_min, y_max)`. -/
def setRoi1 (s : AppState) (x0 x1 y0 y1 : Int) : AppState :=
  { s with roi1 := some ⟨s.currentSlice, y0, y1, x0, x1⟩ }

/-- Modelled from the spec: `ROIManager.set_roi2`; per §4.1 it records the
(already adjusted) rectangle and its slice.  Same tuple layout as
`setRoi1`. -/
def setRoi2 (s : AppState) (x0 x1 y0 y1 : Int) : AppState :=
  { s with roi2 := some ⟨s.currentSlice, y0, y1, x0, x1⟩ }

/-- The recentering/resizing arithmetic of `_roi2_callback`
(`main_window.py:825-835`), for one axis: given the axis dimension `dim`
(`volume.shape[...]`), ROI1's extent `w` on that axis, and the raw drawn
interval `[lo, hi]`, returns the adjusted `(min, max)` pair.  Python `//` is
floor division, i.e. `Int.fdiv`. -/
def adjustAxis (dim w lo hi : Int) : Int × Int :=
  let center := (lo + hi).fdiv 2
  let lo' := max 0 (center - w.fdiv 2)
  (lo', min (dim - 1) (lo' + w))

/-- Embedding of `_roi2_callback` (`main_window.py:821-848`): destructures `roi1_3d`,
forces ROI2's width/height to ROI1's, recenters on the raw rectangle's
centroid, clamps, records the rectangle via `set_roi2` and transitions to
`ROI_DEFINED`.  If ROI1 is unset the Python destructuring of `None` raises;
that case is returned as an `err` with nothing recorded. -/
def roi2Callback (s : AppState) (xmin xmax ymin ymax : Int) : StepResult :=
  match s.roi1 with
  | none => ⟨s, some .noRoi, none⟩
  | some r1 =>
    let roi1Width := r1.x1 - r1.x0
    let roi1Height := r1.y1 - r1.y0
    let (xm, xM) := adjustAxis s.shapeX roi1Width xmin xmax
    let (ym, yM) := adjustAxis s.shapeY roi1Height ymin ymax
    let s' := setRoi2 s xm xM ym yM
    match transitionTo s'.uiState .ROI_DEFINED with
    | .ok st => ⟨{ s' with uiState := st }, none, none⟩
    | .error e => ⟨s', some e, none⟩

/-- Modelled from the spec: `ROIManager.has_both_rois` (not under `src/`);
§4.1 `has_both()` is true iff both annotations are present. -/
def hasBothRois (s : AppState) : Bool :=
  s.roi1.isSome && s.roi2.isSome

/-- Modelled from the spec: `ROIManager.get_combined_roi_coords` (not under
`src/`); §4.1 `combined()` returns `z0,z1 = sorted(slice1, slice2)` with
`x0,x1,y0,y1` from ROI1's geometry as recentered by ROI2's placement (i.e.
ROI2's adjusted rectangle), failing if the box is degenerate (any axis
extent ≤ 0) or fully outside volume bounds.  The failure is the `ValueError`
caught at `main_window.py:875`. -/
def getCombinedRoiCoords (s : AppState) :
    Except AppError (Int × Int × Int × Int × Int × Int) :=
  match s.roi1, s.roi2 with
  | some r1, some r2 =>
    let z0 := min r1.z r2.z
    let z1 := max r1.z r2.z
    if z1 - z0 ≤ 0 ∨ r2.y1 - r2.y0 ≤ 0 ∨ r2.x1 - r2.x0 ≤ 0 then
      .error .invalidGeometry
    else if r2.x1 < 0 ∨ r2.x0 > s.shapeX - 1 ∨ r2.y1 < 0 ∨ r2.y0 > s.shapeY - 1 then
      .error .invalidGeometry
    else
      .ok (z0, z1, r2.y0, r2.y1, r2.x0, r2.x1)
  | _, _ => .error .noRoi

/-! ## Job dispatch (`main_window.py:867-906` and `main_window.py:985-1016`) -/

/-- Embedding of `_segment_roi` (`main_window.py:867-906`): warns and returns if the two
ROIs are not both present; computes the combined ROI (a `ValueError` is
shown and the handler returns); loads the model (`modelAvailable` stands for
`get_model_instance` returning non-`None`); then transitions to `SEGMENTING`
and spawns the segmentation worker.  Every early exit spawns nothing. -/
def segmentRoi (s : AppState) (modelAvailable : Bool) : StepResult :=
  if hasBothRois s then
    match getCombinedRoiCoords s with
    | .error e => ⟨s, some e, none⟩
    | .ok _ =>
      if modelAvailable then
        match transitionTo s.uiState .SEGMENTING with
        | .ok st => ⟨{ s with uiState := st }, none, some .segmentation⟩
        | .error e => ⟨s, some e, none⟩
      else ⟨s, some .modelUnavailable, none⟩
  else ⟨s, some .noRoi, none⟩

/-- Embedding of `_apply_mask_refinement` (`main_window.py:985-1016`): warns and returns
if the current organ has no base mask; otherwise transitions to `REFINING`
and spawns the refinement worker with the stored base mask and the slider
parameters (the parameters only flow into the worker, not into the modelled
state). -/
def applyMaskRefinement (s : AppState) : StepResult :=
  if (s.baseMasks s.currentOrgan).isSome then
    match transitionTo s.uiState .REFINING with
    | .ok st => ⟨{ s with uiState := st }, none, some .refinement⟩
    | .error e => ⟨s, some e, none⟩
  else ⟨s, some .noBaseMask, none⟩

/-! ## Job completion handlers (`main_window.py:913-1070`) -/

/-- Embedding of `_on_segmentation_finished` (`main_window.py:913-959`): reads the organ
key from the stats (`'unknown'` if absent), stores two copies of the mask as
base and current, adds the organ to the combo box if new and selects it,
appends one `segmentation` record, and transitions to `MASK_READY`.
`now` stands for `datetime.now()`. -/
def onSegmentationFinished (s : AppState) (mask : Mask) (stats : SegStats)
    (now : Nat) : StepResult :=
  let organKey := stats.organKey.getD "unknown"
  let s' : AppState :=
    { s with
      baseMasks := s.baseMasks.set organKey mask
      masks := s.masks.set organKey mask
      organItems :=
        if organKey ∈ s.organItems then s.organItems else s.organItems ++ [organKey]
      currentOrgan := organKey
      operationHistory := s.operationHistory ++
        [⟨stats.timestamp.getD now, .segmentation, organKey, .seg stats⟩] }
  match transitionTo s'.uiState .MASK_READY with
  | .ok st => ⟨{ s' with uiState := st }, none, none⟩
  | .error e => ⟨s', some e, none⟩

/-- Embedding of `_on_segmentation_error` (`main_window.py:961-967`): hides the progress
bar, transitions back to `ROI_DEFINED`, shows the error message.  No mask or
history mutation. -/
def onSegmentationError (s : AppState) : StepResult :=
  match transitionTo s.uiState .ROI_DEFINED with
  | .ok st => ⟨{ s with uiState := st }, none, none⟩
  | .error e => ⟨s, some e, none⟩

/-- Embedding of `_on_refinement_finished` (`main_window.py:1018-1051`): reads the organ
key from the stats (falling back to the combo box selection), overwrites the
current mask for that organ only, appends one `refinement` record, and
transitions to `MASK_READY`. -/
def onRefinementFinished (s : AppState) (mask : Mask) (stats : RefStats)
    (now : Nat) : StepResult :=
  let organKey := stats.organKey.getD s.currentOrgan
  let s' : AppState :=
    { s with
      masks := s.masks.set organKey mask
      operationHistory := s.operationHistory ++
        [⟨stats.timestamp.getD now, .refinement, organKey, .ref stats⟩] }
  match transitionTo s'.uiState .MASK_READY with
  | .ok st => ⟨{ s' with uiState := st }, none, none⟩
  | .error e => ⟨s', some e, none⟩

/-- Embedding of `_on_refinement_error` (`main_window.py:1053-1059`): transitions to
`MASK_READY` and shows the error message.  No mask or history mutation. -/
def onRefinementError (s : AppState) : StepResult :=
  match transitionTo s.uiState .MASK_READY with
  | .ok st => ⟨{ s with uiState := st }, none, none⟩
  | .error e => ⟨s, some e, none⟩

/-- Embedding of `_reset_to_base_mask` (`main_window.py:1061-1070`): if the currently
selected organ has a base mask, sets the current mask to a copy of it;
otherwise the `if` falls through and the handler silently does nothing — no
message box, no exception. -/
def resetToBaseMask (s : AppState) : StepResult :=
  match s.baseMasks s.currentOrgan with
  | some b => ⟨{ s with masks := s.masks.set s.currentOrgan b }, none, none⟩
  | none => ⟨s, none, none⟩

/-! ## Configuration loading and startup (`main_window.py:102-112`,
`src/main.py:30-58`) -/

/-- The configuration fields consulted in `__init__`
(`main_window.py:71-93`); the remaining keys of the YAML document do not
influence the modelled control flow. -/
structure Config where
  defaultWindowCenter : Int
  defaultWindowWidth : Int
  autoWindowEnabled : Bool
  simplifiedMode : Bool
deriving DecidableEq, Repr

/-- Embedding of `_get_default_config` (`main_window.py:114-180`), restricted to the
fields of `Config`. -/
def getDefaultConfig : Config :=
  { defaultWindowCenter := -600
    defaultWindowWidth := 1500
    autoWindowEnabled := true
    simplifiedMode := true }

/-- Exceptions that `open` + `yaml.safe_load` can raise. -/
inductive YamlError where
  | fileNotFound
  | parseError
deriving DecidableEq, Repr

/-- The configuration input at the given path: absent file, present but
unparseable YAML, or a well-formed document. -/
inductive ConfigSource where
  | missing
  | unparseable
  | valid (c : Config)
deriving DecidableEq, Repr

/-- The `open`/`yaml.safe_load` body of `_load_config`
(`main_window.py:105-106`). -/
def readYaml : ConfigSource → Except YamlError Config
  | .missing => .error .fileNotFound
  | .unparseable => .error .parseError
  | .valid c => .ok c

/-- Embedding of `_load_config` (`main_window.py:102-112`): the `try` block catches only
`FileNotFoundError`, answering the default configuration after a warning
message box (the `Bool` records whether that warning was shown); any other
exception — in particular a YAML parse error — propagates out of
`_load_config` and out of `__init__`. -/
def loadConfig (src : ConfigSource) : Except YamlError (Config × Bool) :=
  match readYaml src with
  | .ok c => .ok (c, false)
  | .error .fileNotFound => .ok (getDefaultConfig, true)
  | .error e => .error e

/-- Embedding of `main` (`src/main.py:30-58`): constructing `LungSegmenterGUI` inside
`try` — an exception from `_load_config` is caught and `main` returns `1`;
otherwise the window shows and the event loop runs (exit code `0` models the
normal `app.exec_()` return). -/
def mainResult (src : ConfigSource) : Int :=
  match loadConfig src with
  | .ok _ => 0
  | .error _ => 1

/-! ## `BaseSegmenter.preprocess_volume` (`src/models/base_model.py:138-155`) -/

/-- A 3D image volume as nested lists `(Z, Y, X)`; value semantics stand in
for the `numpy` array, so `.copy()` is the identity on contents. -/
abbrev Volume := List (List (List Int))

/-- Python slice `l[a : b+1]` for non-negative bounds: drop `a`, then take
`b + 1 - a` (both clamp exactly as Python slicing does). -/
def sliceClosed (l : List α) (a b : Nat) : List α :=
  (l.drop a).take (b + 1 - a)

/-- Embedding of `preprocess_volume` (`base_model.py:138-155`): with ROI coordinates
`(z0, z1, y0, y1, x0, x1)` returns a copy of
`volume[z0:z1+1, y0:y1+1, x0:x1+1]`; with `None` returns a copy of the whole
volume. -/
def preprocessVolume (v : Volume)
    (roiCoords : Option (Nat × Nat × Nat × Nat × Nat × Nat)) : Volume :=
  match roiCoords with
  | some (z0, z1, y0, y1, x0, x1) =>
    (sliceClosed v z0 z1).map fun plane =>
      (sliceClosed plane y0 y1).map fun row => sliceClosed row x0 x1
  | none => v

/-- Lookup `v[i][j][k]` as an `Option`. -/
def get3 (v : Volume) (i j k : Nat) : Option Int :=
  (v[i]?).bind fun plane => (plane[j]?).bind fun row => row[k]?

/-- The volume is a regular `(Z, Y, X)` box. -/
def VolumeShape (v : Volume) (dimZ dimY dimX : Nat) : Prop :=
  v.length = dimZ ∧ ∀ p ∈ v, p.length = dimY ∧ ∀ r ∈ p, r.length = dimX

/-! ## Concrete states used in closed statements -/

/-- A small concrete mask. -/
def sampleMask : Mask := [[[1, 0], [0, 1]]]

/-- A second concrete mask, different from `sampleMask`. -/
def sampleMask2 : Mask := [[[1, 1], [1, 1]]]

/-- The empty mask dictionary. -/
def emptyMasks : MaskMap := fun _ => none

/-- Concrete segmentation stats for the `lung` organ. -/
def sampleSegStats : SegStats :=
  { organKey := some "lung", timestamp := some 5, elapsedTime := 3 }

/-- Concrete refinement stats for the `lung` organ (the spec's §8 numbers:
500000 base voxels, 450000 final, −10% improvement). -/
def sampleRefStats : RefStats :=
  { organKey := some "lung", timestamp := some 7, baseCount := 500000
    finalCount := 450000, improvementPercent := -10, volumeMl := 450 }

/-- Concrete state after loading a `(100, 512, 512)` volume and drawing ROI1
`x=[100,400], y=[100,400]` on slice 40; the current slice is now 60 and ROI2
is about to be drawn. -/
def roiState : AppState :=
  { uiState := .VOLUME_LOADED
    shapeZ := 100, shapeY := 512, shapeX := 512
    currentSlice := 60
    roi1 := some ⟨40, 100, 400, 100, 400⟩
    roi2 := none
    masks := emptyMasks, baseMasks := emptyMasks
    operationHistory := []
    currentOrgan := "lung", organItems := ["lung"] }

/-- Concrete state with a segmentation job in flight: both ROIs valid, a
base mask for `lung` already stored, workflow state `SEGMENTING`. -/
def busyState : AppState :=
  { uiState := .SEGMENTING
    shapeZ := 100, shapeY := 512, shapeX := 512
    currentSlice := 60
    roi1 := some ⟨40, 100, 400, 100, 400⟩
    roi2 := some ⟨60, 150, 450, 150, 450⟩
    masks := emptyMasks.set "lung" sampleMask
    baseMasks := emptyMasks.set "lung" sampleMask
    operationHistory := []
    currentOrgan := "lung", organItems := ["lung"] }

/-- The same situation with a refinement job in flight. -/
def refiningState : AppState :=
  { busyState with uiState := .REFINING }

/-- Concrete state in which no organ has a base mask. -/
def noBaseState : AppState :=
  { uiState := .MASK_READY
    shapeZ := 100, shapeY := 512, shapeX := 512
    currentSlice := 60
    roi1 := some ⟨40, 100, 400, 100, 400⟩
    roi2 := some ⟨60, 150, 450, 150, 450⟩
    masks := emptyMasks.set "lung" sampleMask
    baseMasks := emptyMasks
    operationHistory := []
    currentOrgan := "lung", organItems := ["lung"] }

/-- A finite sequence of successful refinements folded through
`_on_refinement_finished`. -/
def applyRefinements (s : AppState) (l : List (Mask × RefStats)) (now : Nat) :
    AppState :=
  l.foldl (fun st p => (onRefinementFinished st p.1 p.2 now).state) s

/-- A small concrete `2 × 2 × 2` volume. -/
def sampleVolume : Volume :=
  [[[10, 11], [12, 13]], [[20, 21], [22, 23]]]

/-! ## Theorems -/

/-- C2: when a background job terminates with an error, the handler leaves
the base mask and the current mask of every organ exactly as they were,
appends no operation record, and moves the workflow state to `ROI_DEFINED`
for a failed segmentation and to `MASK_READY` for a failed refinement. -/
theorem job_error_preserves_store (s t : AppState)
    (hs : s.uiState = .SEGMENTING) (ht : t.uiState = .REFINING) :
    ((onSegmentationError s).state.masks = s.masks ∧
     (onSegmentationError s).state.baseMasks = s.baseMasks ∧
     (onSegmentationError s).state.operationHistory = s.operationHistory ∧
     (onSegmentationError s).state.uiState = .ROI_DEFINED ∧
     (onSegmentationError s).err = none) ∧
    ((onRefinementError t).state.masks = t.masks ∧
     (onRefinementError t).state.baseMasks = t.baseMasks ∧
     (onRefinementError t).state.operationHistory = t.operationHistory ∧
     (onRefinementError t).state.uiState = .MASK_READY ∧
     (onRefinementError t).err = none) := by
  constructor <;>
    simp [onSegmentationError, onRefinementError, transitionTo, hs, ht, legalEdge]

/-- C2 witness: the error handlers applied to the concrete in-flight
states. -/
theorem job_error_preserves_store_witness :
    ((onSegmentationError busyState).state.masks = busyState.masks ∧
     (onSegmentationError busyState).state.baseMasks = busyState.baseMasks ∧
     (onSegmentationError busyState).state.operationHistory = busyState.operationHistory ∧
     (onSegmentationError busyState).state.uiState = .ROI_DEFINED ∧
     (onSegmentationError busyState).err = none) ∧
    ((onRefinementError refiningState).state.masks = refiningState.masks ∧
     (onRefinementError refiningState).state.baseMasks = refiningState.baseMasks ∧
     (onRefinementError refiningState).state.operationHistory = refiningState.operationHistory ∧
     (onRefinementError refiningState).state.uiState = .MASK_READY ∧
     (onRefinementError refiningState).err = none) :=
  job_error_preserves_store busyState refiningState rfl rfl

/-- C3: a successful segmentation with organ key `k` writes the result mask
as both the base and the current mask of `k` (the source stores two
independent `.copy()`s; copies coincide with the value here), appends
exactly one `segmentation` record for `k`, and transitions to
`MASK_READY`. -/
theorem segmentation_success_records (s : AppState) (mask : Mask)
    (stats : SegStats) (now : Nat) (k : String)
    (hk : stats.organKey = some k) (hs : s.uiState = .SEGMENTING) :
    (onSegmentationFinished s mask stats now).state.baseMasks k = some mask ∧
    (onSegmentationFinished s mask stats now).state.masks k = some mask ∧
    (onSegmentationFinished s mask stats now).state.operationHistory =
      s.operationHistory ++
        [⟨stats.timestamp.getD now, .segmentation, k, .seg stats⟩] ∧
    (onSegmentationFinished s mask stats now).state.uiState = .MASK_READY ∧
    (onSegmentationFinished s mask stats now).err = none := by
  simp [onSegmentationFinished, hk, hs, transitionTo, legalEdge, MaskMap.set]

/-- C3 witness: a concrete successful segmentation for `lung` from
`busyState`. -/
theorem segmentation_success_records_witness :
    (onSegmentationFinished busyState sampleMask2 sampleSegStats 9).state.baseMasks "lung" = some sampleMask2 ∧
    (onSegmentationFinished busyState sampleMask2 sampleSegStats 9).state.masks "lung" = some sampleMask2 ∧
    (onSegmentationFinished busyState sampleMask2 sampleSegStats 9).state.operationHistory =
      busyState.operationHistory ++
        [⟨sampleSegStats.timestamp.getD 9, .segmentation, "lung", .seg sampleSegStats⟩] ∧
    (onSegmentationFinished busyState sampleMask2 sampleSegStats 9).state.uiState = .MASK_READY ∧
    (onSegmentationFinished busyState sampleMask2 sampleSegStats 9).err = none :=
  segmentation_success_records busyState sampleMask2 sampleSegStats 9 "lung" rfl rfl

/-- The combined-ROI computation only ever fails with `invalidGeometry` or
`noRoi`, never with `busy`. -/
theorem getCombinedRoiCoords_no_busy (s : AppState) (e : AppError)
    (h : getCombinedRoiCoords s = .error e) : e ≠ AppError.busy := by
  intro hbusy
  subst hbusy
  unfold getCombinedRoiCoords at h
  split at h
  · dsimp only at h
    split at h
    · exact absurd h (by simp)
    · split at h
      · exact absurd h (by simp)
      · exact absurd h (by simp)
  · exact absurd h (by simp)

/-- When the state machine has no edge into `SEGMENTING` from the current
state, `_segment_roi` surfaces some error (never `BusyError`) and spawns no
worker. -/
theorem segmentRoi_gated (s : AppState) (m : Bool)
    (hle : legalEdge s.uiState .SEGMENTING = false) :
    (segmentRoi s m).spawned = none ∧ (segmentRoi s m).err.isSome = true ∧
    (segmentRoi s m).err ≠ some .busy := by
  unfold segmentRoi
  by_cases hb : hasBothRois s
  · rw [if_pos hb]
    cases hgc : getCombinedRoiCoords s with
    | error e =>
      have hne := getCombinedRoiCoords_no_busy s e hgc
      simp [hgc, hne]
    | ok r =>
      cases m with
      | false => simp [hgc]
      | true => simp [hgc, transitionTo, hle]
  · simp [hb]

/-- When the state machine has no edge into `REFINING` from the current
state, `_apply_mask_refinement` surfaces some error (never `BusyError`) and
spawns no worker. -/
theorem applyMaskRefinement_gated (s : AppState)
    (hle : legalEdge s.uiState .REFINING = false) :
    (applyMaskRefinement s).spawned = none ∧
    (applyMaskRefinement s).err.isSome = true ∧
    (applyMaskRefinement s).err ≠ some .busy := by
  unfold applyMaskRefinement
  by_cases hb : (s.baseMasks s.currentOrgan).isSome
  · simp [hb, transitionTo, hle]
  · simp [hb]

/-- C1 counterexample: from the concrete busy state (`SEGMENTING`, both ROIs
valid, base mask present, model available) both dispatchers fail with
`IllegalTransitionError` — not with `BusyError` as the claim states — and
the dispatch handlers of `main_window.py:867-906` / `985-1016` contain no
reentrancy check besides the state-machine transition. -/
theorem dispatch_busy_counterexample :
    (segmentRoi busyState true).err = some .illegalTransition ∧
    (segmentRoi busyState true).spawned = none ∧
    (applyMaskRefinement busyState).err = some .illegalTransition ∧
    (applyMaskRefinement busyState).spawned = none ∧
    AppError.illegalTransition ≠ AppError.busy :=
  ⟨rfl, rfl, rfl, rfl, by decide⟩

/-- C1 (amended): while a job is active (state `SEGMENTING` or `REFINING`)
every dispatch attempt fails and spawns no worker, but the failure comes
from the state-machine gating (`IllegalTransitionError`) or an earlier
precondition check, never from a `BusyError`; there is no direct reentrancy
guard besides the state gating. -/
theorem dispatch_while_busy_fails (s : AppState) (m : Bool)
    (h : s.uiState = .SEGMENTING ∨ s.uiState = .REFINING) :
    ((segmentRoi s m).spawned = none ∧ (segmentRoi s m).err.isSome = true ∧
     (segmentRoi s m).err ≠ some .busy) ∧
    ((applyMaskRefinement s).spawned = none ∧
     (applyMaskRefinement s).err.isSome = true ∧
     (applyMaskRefinement s).err ≠ some .busy) := by
  have h1 : legalEdge s.uiState .SEGMENTING = false := by
    rcases h with h | h <;> rw [h] <;> rfl
  have h2 : legalEdge s.uiState .REFINING = false := by
    rcases h with h | h <;> rw [h] <;> rfl
  exact ⟨segmentRoi_gated s m h1, applyMaskRefinement_gated s h2⟩

/-- C1 witness: the amended statement applied at the concrete state with a
refinement job in flight. -/
theorem dispatch_while_busy_fails_witness :
    ((segmentRoi refiningState true).spawned = none ∧
     (segmentRoi refiningState true).err.isSome = true ∧
     (segmentRoi refiningState true).err ≠ some .busy) ∧
    ((applyMaskRefinement refiningState).spawned = none ∧
     (applyMaskRefinement refiningState).err.isSome = true ∧
     (applyMaskRefinement refiningState).err ≠ some .busy) :=
  dispatch_while_busy_fails refiningState true (Or.inr rfl)

/-- C4 counterexample: with volume X-dimension 512 and ROI1 width 300, a raw
ROI2 rectangle with centroid x = 700 is adjusted to `x = [550, 511]`: its
extent is not ROI1's width and its lower edge does not lie in `[0, 511]`,
refuting the claim's universally quantified description of the
adjustment. -/
theorem roi2_adjust_counterexample :
    adjustAxis 512 300 700 700 = (550, 511) ∧
    ¬((511 : Int) - 550 = 300) ∧ ¬((550 : Int) ≤ 512 - 1) := by decide

/-- C4 (amended): on each axis the adjusted ROI2 interval is the ROI1-sized
interval centered (integer floor division) on the raw centroid whenever that
interval fits inside `[0, dim-1]`; in that case its extent equals ROI1's and
it lies within bounds (in general only the lower edge is clamped below by
`0` and the upper edge above by `dim-1`).  For volume shape `(100,512,512)`,
ROI1 `x=[100,400], y=[100,400]` and a raw ROI2 centered at `(300,300)` on
slice 60, the recorded rectangle is `x=[150,450], y=[150,450]`. -/
theorem roi2_adjust_behavior (dim w lo hi : Int)
    (h0 : 0 ≤ (lo + hi).fdiv 2 - w.fdiv 2)
    (h1 : (lo + hi).fdiv 2 - w.fdiv 2 + w ≤ dim - 1) :
    (adjustAxis dim w lo hi =
      ((lo + hi).fdiv 2 - w.fdiv 2, (lo + hi).fdiv 2 - w.fdiv 2 + w) ∧
     (adjustAxis dim w lo hi).2 - (adjustAxis dim w lo hi).1 = w ∧
     0 ≤ (adjustAxis dim w lo hi).1 ∧
     (adjustAxis dim w lo hi).2 ≤ dim - 1) ∧
    ((roi2Callback roiState 300 300 300 300).state.roi2 =
       some ⟨60, 150, 450, 150, 450⟩ ∧
     (roi2Callback roiState 300 300 300 300).state.uiState = .ROI_DEFINED ∧
     (roi2Callback roiState 300 300 300 300).err = none) := by
  have heq : adjustAxis dim w lo hi =
      ((lo + hi).fdiv 2 - w.fdiv 2, (lo + hi).fdiv 2 - w.fdiv 2 + w) := by
    unfold adjustAxis
    dsimp only
    rw [max_eq_right h0, min_eq_right h1]
  refine ⟨⟨heq, ?_, ?_, ?_⟩, by decide⟩
  · rw [heq]; dsimp only; ring
  · rw [heq]; exact h0
  · rw [heq]; exact h1

/-- C4 witness: the amended statement at the spec's concrete instance. -/
theorem roi2_adjust_behavior_witness :
    (adjustAxis 512 300 300 300 = (150, 450) ∧
     (adjustAxis 512 300 300 300).2 - (adjustAxis 512 300 300 300).1 = 300 ∧
     0 ≤ (adjustAxis 512 300 300 300).1 ∧
     (adjustAxis 512 300 300 300).2 ≤ 512 - 1) ∧
    ((roi2Callback roiState 300 300 300 300).state.roi2 =
       some ⟨60, 150, 450, 150, 450⟩ ∧
     (roi2Callback roiState 300 300 300 300).state.uiState = .ROI_DEFINED ∧
     (roi2Callback roiState 300 300 300 300).err = none) :=
  roi2_adjust_behavior 512 300 300 300 (by decide) (by decide)

/-- C9: if the raw rectangle's centroid lies within `[0, dim-1]` on an axis,
ROI1's extent is nonnegative and it fits in the volume, the adjusted
interval satisfies `0 ≤ lo ≤ hi ≤ dim - 1`; without the centroid bound this
fails: a raw ROI2 with centroid x = 700 in a 512-wide volume is recorded as
the inverted interval `x = [550, 511]`, with no error raised by
`_roi2_callback`. -/
theorem roi2_adjust_bounds (dim w lo hi : Int) (hw : 0 ≤ w)
    (hfit : w ≤ dim - 1)
    (hc0 : 0 ≤ (lo + hi).fdiv 2) (hc1 : (lo + hi).fdiv 2 ≤ dim - 1) :
    (0 ≤ (adjustAxis dim w lo hi).1 ∧
     (adjustAxis dim w lo hi).1 ≤ (adjustAxis dim w lo hi).2 ∧
     (adjustAxis dim w lo hi).2 ≤ dim - 1) ∧
    (adjustAxis 512 300 700 700 = (550, 511) ∧ ¬((550 : Int) ≤ 511) ∧
     (roi2Callback roiState 700 700 300 300).err = none ∧
     (roi2Callback roiState 700 700 300 300).state.roi2 =
       some ⟨60, 150, 450, 550, 511⟩) := by
  have hq : 0 ≤ w.fdiv 2 := Int.fdiv_nonneg hw (by norm_num)
  have h2 : (lo + hi).fdiv 2 - w.fdiv 2 ≤ dim - 1 :=
    le_trans (sub_le_self _ hq) hc1
  have hd : (0 : Int) ≤ dim - 1 := le_trans hw hfit
  have hle : max 0 ((lo + hi).fdiv 2 - w.fdiv 2) ≤ dim - 1 := max_le hd h2
  refine ⟨?_, by decide⟩
  unfold adjustAxis
  dsimp only
  exact ⟨le_max_left _ _, le_min hle (le_add_of_nonneg_right hw),
    min_le_left _ _⟩

/-- C9 witness: the bounds statement at the concrete in-range instance. -/
theorem roi2_adjust_bounds_witness :
    (0 ≤ (adjustAxis 512 300 300 300).1 ∧
     (adjustAxis 512 300 300 300).1 ≤ (adjustAxis 512 300 300 300).2 ∧
     (adjustAxis 512 300 300 300).2 ≤ 512 - 1) ∧
    (adjustAxis 512 300 700 700 = (550, 511) ∧ ¬((550 : Int) ≤ 511) ∧
     (roi2Callback roiState 700 700 300 300).err = none ∧
     (roi2Callback roiState 700 700 300 300).state.roi2 =
       some ⟨60, 150, 450, 550, 511⟩) :=
  roi2_adjust_bounds 512 300 300 300 (by decide) (by decide) (by decide)
    (by decide)

/-- Refinement completion never touches the base-mask dictionary or the
selected organ of the combo box. -/
theorem onRefinementFinished_frame (s : AppState) (m : Mask) (st : RefStats)
    (now : Nat) :
    (onRefinementFinished s m st now).state.baseMasks = s.baseMasks ∧
    (onRefinementFinished s m st now).state.currentOrgan = s.currentOrgan := by
  unfold onRefinementFinished
  dsimp only
  split <;> exact ⟨rfl, rfl⟩

/-- A whole sequence of refinement completions never touches the base-mask
dictionary or the selected organ. -/
theorem applyRefinements_frame (s : AppState) (l : List (Mask × RefStats))
    (now : Nat) :
    (applyRefinements s l now).baseMasks = s.baseMasks ∧
    (applyRefinements s l now).currentOrgan = s.currentOrgan := by
  induction l generalizing s with
  | nil => exact ⟨rfl, rfl⟩
  | cons p t ih =>
    have h := onRefinementFinished_frame s p.1 p.2 now
    have ht := ih (onRefinementFinished s p.1 p.2 now).state
    simp only [applyRefinements, List.foldl_cons] at ht ⊢
    exact ⟨ht.1.trans h.1, ht.2.trans h.2⟩

/-- When the selected organ has a base mask, reset-to-base replaces its
current mask by that base mask and changes nothing else. -/
theorem resetToBaseMask_some (s : AppState) (b : Mask)
    (h : s.baseMasks s.currentOrgan = some b) :
    resetToBaseMask s =
      ⟨{ s with masks := s.masks.set s.currentOrgan b }, none, none⟩ := by
  unfold resetToBaseMask
  rw [h]

/-- C5: for an organ `k` whose base mask `b` was recorded by the most recent
segmentation, after any finite sequence of successful refinements of `k`,
reset-to-base makes the current mask of `k` bit-identical to `b`; and the
copy is deep: a subsequent refinement overwriting the current mask still
leaves the base mask of `k` equal to `b`. -/
theorem reset_to_base_after_refinements (s : AppState) (k : String) (b : Mask)
    (hk : s.currentOrgan = k) (hb : s.baseMasks k = some b)
    (l : List (Mask × RefStats)) (now : Nat)
    (hl : ∀ p ∈ l, p.2.organKey = some k) :
    (resetToBaseMask (applyRefinements s l now)).state.masks k = some b ∧
    (resetToBaseMask (applyRefinements s l now)).state.baseMasks k = some b ∧
    ∀ (m2 : Mask) (st2 : RefStats),
      (onRefinementFinished (resetToBaseMask (applyRefinements s l now)).state m2 st2 now).state.baseMasks k = some b := by
  obtain ⟨hbase, horg⟩ := applyRefinements_frame s l now
  have hb' : (applyRefinements s l now).baseMasks
      (applyRefinements s l now).currentOrgan = some b := by
    rw [horg, hk, hbase, hb]
  rw [resetToBaseMask_some _ b hb']
  refine ⟨?_, ?_, ?_⟩
  · show ((applyRefinements s l now).masks.set
        (applyRefinements s l now).currentOrgan b) k = some b
    rw [horg, hk]
    simp [MaskMap.set]
  · show (applyRefinements s l now).baseMasks k = some b
    rw [hbase, hb]
  · intro m2 st2
    rw [(onRefinementFinished_frame _ m2 st2 now).1]
    show (applyRefinements s l now).baseMasks k = some b
    rw [hbase, hb]

/-- C5 witness: one concrete refinement of `lung` followed by
reset-to-base restores the segmentation-time base mask. -/
theorem reset_to_base_after_refinements_witness :
    (resetToBaseMask (applyRefinements busyState [(sampleMask2, sampleRefStats)] 13)).state.masks "lung" = some sampleMask ∧
    (resetToBaseMask (applyRefinements busyState [(sampleMask2, sampleRefStats)] 13)).state.baseMasks "lung" = some sampleMask :=
  ⟨(reset_to_base_after_refinements busyState "lung" sampleMask rfl rfl
      [(sampleMask2, sampleRefStats)] 13 (by decide)).1,
   (reset_to_base_after_refinements busyState "lung" sampleMask rfl rfl
      [(sampleMask2, sampleRefStats)] 13 (by decide)).2.1⟩

/-- C6: a successful refinement of organ `k` overwrites only the current
mask of `k`: the base-mask dictionary is untouched and the current masks of
all other organs are unchanged; it appends one `refinement` record and
transitions to `MASK_READY`.  Moreover the base mask of `k` is untouched by
a segmentation completing for a different organ, by reset-to-base and by
both error handlers — only a new successful segmentation for `k` writes
it. -/
theorem refinement_overwrites_only_current (s : AppState) (m : Mask)
    (st : RefStats) (now : Nat) (k : String)
    (hk : st.organKey = some k) (hs : s.uiState = .REFINING) :
    (onRefinementFinished s m st now).state.masks k = some m ∧
    (onRefinementFinished s m st now).state.baseMasks = s.baseMasks ∧
    (∀ k', k' ≠ k →
      (onRefinementFinished s m st now).state.masks k' = s.masks k') ∧
    (onRefinementFinished s m st now).state.operationHistory =
      s.operationHistory ++
        [⟨st.timestamp.getD now, .refinement, k, .ref st⟩] ∧
    (onRefinementFinished s m st now).state.uiState = .MASK_READY ∧
    (onRefinementFinished s m st now).err = none ∧
    (∀ (m2 : Mask) (st2 : SegStats), st2.organKey.getD "unknown" ≠ k →
      (onSegmentationFinished s m2 st2 now).state.baseMasks k =
        s.baseMasks k) ∧
    (resetToBaseMask s).state.baseMasks = s.baseMasks ∧
    (onSegmentationError s).state.baseMasks = s.baseMasks ∧
    (onRefinementError s).state.baseMasks = s.baseMasks := by
  refine ⟨?_, (onRefinementFinished_frame s m st now).1, ?_, ?_, ?_, ?_,
    ?_, ?_, ?_, ?_⟩
  · simp [onRefinementFinished, hk, hs, transitionTo, legalEdge, MaskMap.set]
  · intro k' hk'
    simp [onRefinementFinished, hk, hs, transitionTo, legalEdge,
      MaskMap.set, hk']
  · simp [onRefinementFinished, hk, hs, transitionTo, legalEdge]
  · simp [onRefinementFinished, hk, hs, transitionTo, legalEdge]
  · simp [onRefinementFinished, hk, hs, transitionTo, legalEdge]
  · intro m2 st2 h2
    unfold onSegmentationFinished
    dsimp only
    split <;> simp [MaskMap.set, Ne.symm h2]
  · unfold resetToBaseMask
    split <;> rfl
  · unfold onSegmentationError
    split <;> rfl
  · unfold onRefinementError
    split <;> rfl

/-- C6 witness: a concrete refinement of `lung` from `refiningState`,
with the frame checked at the unrelated organ `liver`. -/
theorem refinement_overwrites_only_current_witness :
    (onRefinementFinished refiningState sampleMask2 sampleRefStats 11).state.masks "lung" = some sampleMask2 ∧
    (onRefinementFinished refiningState sampleMask2 sampleRefStats 11).state.baseMasks = refiningState.baseMasks ∧
    (onRefinementFinished refiningState sampleMask2 sampleRefStats 11).state.masks "liver" = refiningState.masks "liver" ∧
    (onRefinementFinished refiningState sampleMask2 sampleRefStats 11).state.uiState = .MASK_READY :=
  ⟨(refinement_overwrites_only_current refiningState sampleMask2
      sampleRefStats 11 "lung" rfl rfl).1,
   (refinement_overwrites_only_current refiningState sampleMask2
      sampleRefStats 11 "lung" rfl rfl).2.1,
   (refinement_overwrites_only_current refiningState sampleMask2
      sampleRefStats 11 "lung" rfl rfl).2.2.1 "liver" (by decide),
   (refinement_overwrites_only_current refiningState sampleMask2
      sampleRefStats 11 "lung" rfl rfl).2.2.2.2.1⟩

/-- C7 counterexample: in the concrete state whose selected organ has no
base mask, reset-to-base surfaces no error and performs no mutation — it
silently does nothing, contrary to the claim that it fails with an
error. -/
theorem reset_no_base_counterexample :
    (resetToBaseMask noBaseState).err = none ∧
    (resetToBaseMask noBaseState).state = noBaseState :=
  ⟨rfl, rfl⟩

/-- C7 (amended): when the selected organ has no recorded base mask,
reset-to-base performs no mutation and surfaces no error — it silently does
nothing (the `if` at `main_window.py:1064` has no `else` branch). -/
theorem reset_no_base_noop (s : AppState)
    (h : s.baseMasks s.currentOrgan = none) :
    resetToBaseMask s = ⟨s, none, none⟩ := by
  unfold resetToBaseMask
  rw [h]

/-- C7 witness: the amended statement at the concrete no-base state. -/
theorem reset_no_base_noop_witness :
    resetToBaseMask noBaseState = ⟨noBaseState, none, none⟩ :=
  reset_no_base_noop noBaseState rfl

/-- C8 counterexample: a present-but-unparseable configuration file is
fatal: `yaml.safe_load`'s parse error is not caught by `_load_config`
(which handles only `FileNotFoundError`), propagates out of `__init__`, and
`main` returns exit code 1 instead of starting the application. -/
theorem config_unparseable_fatal :
    loadConfig .unparseable = .error .parseError ∧
    mainResult .unparseable = 1 ∧ (1 : Int) ≠ 0 :=
  ⟨rfl, rfl, by decide⟩

/-- C8 (amended): a missing configuration file falls back to the built-in
defaults with a warning and startup succeeds; an unparseable file raises a
parse error that aborts startup with exit code 1; a well-formed file is used
as-is and startup succeeds. -/
theorem config_loading_behavior (c : Config) :
    loadConfig .missing = .ok (getDefaultConfig, true) ∧
    mainResult .missing = 0 ∧
    loadConfig .unparseable = .error .parseError ∧
    mainResult .unparseable = 1 ∧
    loadConfig (.valid c) = .ok (c, false) ∧
    mainResult (.valid c) = 0 :=
  ⟨rfl, rfl, rfl, rfl, rfl, rfl⟩

/-- Length of the Python closed slice `l[a : b+1]` when the bounds are
in range. -/
theorem sliceClosed_length {α : Type} (l : List α) (a b : Nat)
    (h1 : a ≤ b) (h2 : b < l.length) :
    (sliceClosed l a b).length = b - a + 1 := by
  simp only [sliceClosed, List.length_take, List.length_drop]
  omega

/-- Index lookup through the Python closed slice `l[a : b+1]`. -/
theorem sliceClosed_getElem {α : Type} (l : List α) (a b i : Nat)
    (h1 : a ≤ b) (hi : i ≤ b - a) :
    (sliceClosed l a b)[i]? = l[a + i]? := by
  unfold sliceClosed
  rw [List.getElem?_take_of_lt (by omega), List.getElem?_drop]

/-- Members of the Python closed slice are members of the list. -/
theorem sliceClosed_subset {α : Type} (l : List α) (a b : Nat) :
    sliceClosed l a b ⊆ l :=
  fun _ h => List.drop_subset a l (List.take_subset _ _ h)

/-- C10: with in-range inclusive ROI bounds, `preprocess_volume` returns the
inclusive sub-box `volume[z0..z1, y0..y1, x0..x1]`, of shape
`(z1-z0+1, y1-y0+1, x1-x0+1)`, and with no ROI it returns the whole volume;
the `.copy()` of the source means the result is a fresh array, which in the
value semantics of this embedding is expressed by the result being a value
independent of any later change to the input. -/
theorem preprocess_volume_box (v : Volume)
    (dimZ dimY dimX z0 z1 y0 y1 x0 x1 : Nat)
    (hv : VolumeShape v dimZ dimY dimX)
    (hz0 : z0 ≤ z1) (hz1 : z1 < dimZ)
    (hy0 : y0 ≤ y1) (hy1 : y1 < dimY)
    (hx0 : x0 ≤ x1) (hx1 : x1 < dimX) :
    VolumeShape (preprocessVolume v (some (z0, z1, y0, y1, x0, x1)))
      (z1 - z0 + 1) (y1 - y0 + 1) (x1 - x0 + 1) ∧
    (∀ i j k, i ≤ z1 - z0 → j ≤ y1 - y0 → k ≤ x1 - x0 →
      get3 (preprocessVolume v (some (z0, z1, y0, y1, x0, x1))) i j k =
        get3 v (z0 + i) (y0 + j) (x0 + k)) ∧
    preprocessVolume v none = v := by
  obtain ⟨hlen, hmem⟩ := hv
  refine ⟨⟨?_, ?_⟩, ?_, rfl⟩
  · simp only [preprocessVolume, List.length_map]
    exact sliceClosed_length v z0 z1 hz0 (hlen ▸ hz1)
  · intro p hp
    simp only [preprocessVolume, List.mem_map] at hp
    obtain ⟨q, hq, rfl⟩ := hp
    have hqv : q ∈ v := sliceClosed_subset v z0 z1 hq
    obtain ⟨hqlen, hqrows⟩ := hmem q hqv
    constructor
    · simp only [List.length_map]
      exact sliceClosed_length q y0 y1 hy0 (hqlen ▸ hy1)
    · intro r hr
      simp only [List.mem_map] at hr
      obtain ⟨row, hrow, rfl⟩ := hr
      have hrq : row ∈ q := sliceClosed_subset q y0 y1 hrow
      exact sliceClosed_length row x0 x1 hx0 ((hqrows row hrq) ▸ hx1)
  · intro i j k hi hj hk
    have hiv : z0 + i < v.length := by omega
    have hsome : v[z0 + i]? = some (v[z0 + i]) := List.getElem?_eq_getElem hiv
    have hplane : v[z0 + i] ∈ v := List.getElem_mem hiv
    obtain ⟨hplen, hprows⟩ := hmem _ hplane
    have hjv : y0 + j < (v[z0 + i]).length := by omega
    have hsome2 : (v[z0 + i])[y0 + j]? = some ((v[z0 + i])[y0 + j]) :=
      List.getElem?_eq_getElem hjv
    simp only [preprocessVolume, get3]
    rw [List.getElem?_map, sliceClosed_getElem v z0 z1 i hz0 hi, hsome,
      Option.map_some', Option.some_bind, Option.some_bind,
      List.getElem?_map, sliceClosed_getElem _ y0 y1 j hy0 hj, hsome2,
      Option.map_some', Option.some_bind, Option.some_bind,
      sliceClosed_getElem _ x0 x1 k hx0 hk]

/-- C10 witness: the box property applied to the concrete `2 × 2 × 2`
volume with ROI `(z, y, x) ∈ [0,1] × [0,0] × [0,1]`. -/
theorem preprocess_volume_box_witness :
    VolumeShape (preprocessVolume sampleVolume (some (0, 1, 0, 0, 0, 1)))
      2 1 2 ∧
    (∀ i j k, i ≤ 1 - 0 → j ≤ 0 - 0 → k ≤ 1 - 0 →
      get3 (preprocessVolume sampleVolume (some (0, 1, 0, 0, 0, 1))) i j k =
        get3 sampleVolume (0 + i) (0 + j) (0 + k)) ∧
    preprocessVolume sampleVolume none = sampleVolume :=
  preprocess_volume_box sampleVolume 2 2 2 0 1 0 0 0 1
    (by constructor <;> decide) (by decide) (by decide) (by decide)
    (by decide) (by decide) (by decide)
